import Mathlib

/-!
Verification of the alx-files_manager service core: a shallow embedding of the
controllers (AppController, AuthController, FilesController), the background
worker, and the storage collaborators they touch, together with theorems
settling the specification claims. Collections are modelled as lists in
insertion order; MongoDB filter equality is type-sensitive (a string never
matches a number), which the `Value` type makes explicit.
-/

/-- JSON/BSON values as they cross the service boundary: numbers, strings,
ObjectIds (wrapping their hex text), booleans and null. -/
inductive Value where
  | num : Int → Value
  | str : String → Value
  | oid : String → Value
  | bool : Bool → Value
  | null : Value
deriving DecidableEq

namespace Value

/-- JavaScript truthiness of a value (0, "", false and null are falsy). -/
def truthy : Value → Bool
  | num n => n != 0
  | str s => s != ""
  | oid _ => true
  | bool b => b
  | null => false

/-- JSON serialization as produced by res.json: an ObjectId serializes to its
hex string (ObjectId.prototype.toJSON); every other value is unchanged. -/
def json : Value → Value
  | oid s => str s
  | v => v

/-- JavaScript v.toString() for the values the controllers compare as text. -/
def jsToString : Value → String
  | num n => toString n
  | str s => s
  | oid s => s
  | bool b => toString b
  | null => "null"

end Value

deriving instance DecidableEq for Except

/-- Hexadecimal character test used by the ObjectId validity check. -/
def isHexChar (c : Char) : Bool :=
  c.isDigit || ('a' ≤ c && c ≤ 'f') || ('A' ≤ c && c ≤ 'F')

/-- ObjectId.isValid from the mongodb driver: null and booleans are invalid,
numbers are accepted, a string is accepted when it has 12 characters (12-byte
form) or is 24 hex characters; an ObjectId instance is valid. -/
def isValidObjectId : Value → Bool
  | .num _ => true
  | .str s => s.length == 12 || (s.length == 24 && s.toList.all isHexChar)
  | .oid _ => true
  | .bool _ => false
  | .null => false

/-- new ObjectId(v) for a value accepted by isValidObjectId. ObjectId
contents are opaque at this abstraction: a hex string wraps the string
itself; the driver's number and 12-byte constructions are represented by
injective tagged encodings (those corners are never reached below). -/
def oidOfValue : Value → Value
  | .str s => .oid s
  | .oid s => .oid s
  | .num n => .oid ("num:" ++ toString n)
  | v => .oid ("other:" ++ v.jsToString)

/-- new ObjectId(v): throws BSONTypeError when the argument is not valid. -/
def newObjectId (v : Value) : Except String Value :=
  if isValidObjectId v then .ok (oidOfValue v) else .error "BSONTypeError"

/-- The conversion `ObjectId.isValid(x) ? new ObjectId(x) : x` applied to the
string route/query/redis parameters throughout the controllers and worker. -/
def strToId (s : String) : Value :=
  if isValidObjectId (.str s) then .oid s else .str s

/-- The conversion `parentId && ObjectId.isValid(parentId) ? new
ObjectId(parentId) : parentId` from postUpload and getIndex. -/
def convertParentId (v : Value) : Value :=
  if v.truthy && isValidObjectId v then oidOfValue v else v

/-- JavaScript truthiness of an optional string field: absent and "" are
falsy. -/
def optTruthy : Option String → Bool
  | some s => s != ""
  | none => false

/-- The regular expression test of getIndex on the page query parameter:
one or more decimal digits, anchored at both ends. -/
def isDigitString (s : String) : Bool :=
  s != "" && s.toList.all Char.isDigit

/-- parseInt(s, 10) evaluated on a string of decimal digits. -/
def parseDigits (s : String) : Nat :=
  s.toList.foldl (fun a c => a * 10 + (c.toNat - 48)) 0

/-- The page computation of getIndex: the digit-string regex guards
parseInt, anything else falls back to 0; the absent-parameter default is the
number 0, which passes the regex after coercion to "0" and parses to 0. -/
def pageOf : Option String → Nat
  | none => 0
  | some s => if isDigitString s then parseDigits s else 0

/-- Store-assigned document ids: the insertion counter rendered as a 24-char
zero-padded hex string, so ids are valid ObjectId hex and ascend in insertion
order (MongoDB ObjectIds ascend with insertion time). -/
def idHex (n : Nat) : String :=
  String.mk (List.replicate (24 - (Nat.toDigits 16 n).length) '0' ++ Nat.toDigits 16 n)

/-- Modelled from the spec: utils/redis (the Token Store wrapper) is not under
src/. Per spec sections 2 and 6 it offers set-with-expiry, get and delete over
a key/value cache; expiry is enforced passively by the store and is outside
this state model (an expired key is simply absent from the list). -/
abbrev Redis := List (String × String)

/-- Modelled from the spec: Token Store get(key). -/
def redisGet (rs : Redis) (k : String) : Option String :=
  (rs.find? (fun e => e.1 == k)).map (fun e => e.2)

/-- Modelled from the spec: Token Store setWithExpiry(key, value, ttlSeconds);
the ttl is accepted and dropped (passive expiry, outside the time model). -/
def redisSet (rs : Redis) (k v : String) (_ttlSeconds : Nat) : Redis :=
  (k, v) :: rs

/-- Modelled from the spec: Token Store delete(key). -/
def redisDel (rs : Redis) (k : String) : Redis :=
  rs.filter (fun e => e.1 != k)

/-- Durable byte storage as a flat path-to-contents map (fs.writeFileSync,
fs.existsSync and reads performed by collaborators). -/
abbrev FS := List (String × String)

/-- fs.writeFileSync: create or overwrite the file at a path. -/
def fsWrite (fs : FS) (p c : String) : FS :=
  (p, c) :: fs.filter (fun e => e.1 != p)

/-- fs.existsSync. -/
def fsExists (fs : FS) (p : String) : Bool :=
  (fs.find? (fun e => e.1 == p)).isSome

/-- Contents of an existing file. -/
def fsRead (fs : FS) (p : String) : String :=
  ((fs.find? (fun e => e.1 == p)).map (fun e => e.2)).getD ""

/-- A document of the files collection as inserted by postUpload: localPath is
present exactly for file/image documents. -/
structure FileDoc where
  _id : Value
  userId : Value
  name : String
  type : String
  isPublic : Bool
  parentId : Value
  localPath : Option String
deriving DecidableEq

/-- A document of the users collection. -/
structure UserDoc where
  _id : Value
  email : String
  password : String
deriving DecidableEq

/-- The files collection in insertion order, with the id counter backing
store-assigned ObjectIds. -/
structure DB where
  files : List FileDoc
  nextId : Nat
deriving DecidableEq

/-- A response body: empty (res.json() with no argument), a JSON object as an
association list, a JSON array of objects, or served file bytes tagged with
their content type. -/
inductive Body where
  | empty : Body
  | obj : List (String × Value) → Body
  | arr : List (List (String × Value)) → Body
  | file : String → String → Body
deriving DecidableEq

/-- An HTTP response: status code and body. -/
structure Response where
  status : Nat
  body : Body
deriving DecidableEq

/-- The error body shape `{ error: msg }` shared by every failure branch. -/
def errBody (msg : String) : Body := .obj [("error", .str msg)]

/-- The 401 response every controller produces for a failed token check. -/
def unauthorized : Response := ⟨401, errBody "Unauthorized"⟩

/-- The 404 response `{ error: 'Not found' }`. -/
def notFound : Response := ⟨404, errBody "Not found"⟩

/-- Keys of an object body (empty for the other body shapes). -/
def bodyKeys : Body → List String
  | .obj l => l.map Prod.fst
  | _ => []

/-- The shared token check of every protected controller:
redisClient.get of the key "auth_" followed by the token. -/
def resolveToken (rs : Redis) (token : String) : Option String :=
  redisGet rs ("auth_" ++ token)

/-- Modelled from the spec: utils/format (formatFileDocument) is not under
src/. Per spec section 6 a File Node response carries exactly the public
fields id, userId, name, type, isPublic, parentId — localPath is never
exposed — with id-like values serialized to their hex strings. -/
def formatFileDocument (d : FileDoc) : List (String × Value) :=
  [("id", d._id.json), ("userId", d.userId.json), ("name", .str d.name),
   ("type", .str d.type), ("isPublic", .bool d.isPublic), ("parentId", d.parentId.json)]

/-- AppController.getStatus: responds 200 with both flags true when both
clients are alive; the controller has no else branch, so otherwise no
response is sent at all. -/
def getStatus (dbAlive redisAlive : Bool) : Option Response :=
  if dbAlive && redisAlive then
    some ⟨200, .obj [("redis", .bool true), ("db", .bool true)]⟩
  else none

/-- AuthController.getConnect from the credential split on: looks up the user
by email, compares the stored hash with the digest of the submitted password,
and on success stores auth_token -> userId with a 24h expiry. The Basic-auth
header decoding that yields the email/password pair is transport handling
outside the model; sha1 and the v4 token generator enter as parameters. -/
def getConnect (sha1 : String → String) (uuid : String) (users : List UserDoc)
    (rs : Redis) (email password : String) : Response × Redis :=
  match users.find? (fun u => u.email == email) with
  | none => (unauthorized, rs)
  | some user =>
    if user.password != sha1 password then (unauthorized, rs)
    else (⟨200, .obj [("token", .str uuid)]⟩,
          redisSet rs ("auth_" ++ uuid) user._id.jsToString (60 * 60 * 24))

/-- AuthController.getDisconnect: 401 when the X-Token header is falsy or the
token is absent from the store; otherwise the key is deleted and
res.status(204).json() sends success with no body. -/
def getDisconnect (rs : Redis) (token : Option String) : Response × Redis :=
  if !optTruthy token then (unauthorized, rs)
  else
    match redisGet rs ("auth_" ++ token.getD "") with
    | none => (unauthorized, rs)
    | some _ => (⟨204, .empty⟩, redisDel rs ("auth_" ++ token.getD ""))

/-- The body of POST /files after the destructuring defaults of postUpload:
an absent parentId is the number 0, an absent isPublic is false; name, type
and data are JSON strings or absent. -/
structure UploadBody where
  name : Option String
  type : Option String
  parentId : Value
  isPublic : Bool
  data : Option String
deriving DecidableEq

/-- Everything observable after a postUpload request: the response, the files
collection, the byte storage and the enqueued thumbnail jobs (fileId,
userId). -/
structure UploadResult where
  resp : Response
  db : DB
  fs : FS
  jobs : List (Value × String)
deriving DecidableEq

/-- FilesController.postUpload: POST /files. Parameters: decode stands for
Buffer.from(data, 'base64'), filesDir for FOLDER_PATH, uuid for the fresh
v4() name. Returns the response, the files collection, the byte storage and
the enqueued thumbnail jobs (fileId, userId); a thrown exception is an
error result. The mkdirSync call maintains a directory tree outside the flat
path map. In the branch where new ObjectId throws after the local write, the
error result does not retain the written file (no theorem observes it).
The second parent guard accesses parentDocument only under the first guard's
protection, so its none case (getD false) is unreachable. -/
def postUpload (decode : String → String) (filesDir uuid : String) (rs : Redis)
    (db : DB) (fs : FS) (token : String) (body : UploadBody) :
    Except String UploadResult :=
  match resolveToken rs token with
  | none => .ok ⟨unauthorized, db, fs, []⟩
  | some userId =>
    let _parentId := convertParentId body.parentId
    if !optTruthy body.name then .ok ⟨⟨400, errBody "Missing name"⟩, db, fs, []⟩
    else if !(["folder", "file", "image"].contains (body.type.getD "")) then
      .ok ⟨⟨400, errBody "Missing type"⟩, db, fs, []⟩
    else if body.type.getD "" != "folder" && !optTruthy body.data then
      .ok ⟨⟨400, errBody "Missing data"⟩, db, fs, []⟩
    else
      let parentDocument := db.files.find? (fun d => d._id == _parentId)
      if _parentId.truthy && parentDocument.isNone then
        .ok ⟨⟨400, errBody "Parent not found"⟩, db, fs, []⟩
      else if _parentId.truthy && ((parentDocument.map (fun p => p.type != "folder")).getD false) then
        .ok ⟨⟨400, errBody "Parent is not a folder"⟩, db, fs, []⟩
      else if body.type.getD "" == "folder" then
        match newObjectId (.str userId) with
        | .error e => .error e
        | .ok uoid =>
          .ok ⟨⟨201, .obj [("id", Value.json (.oid (idHex db.nextId))),
                 ("userId", .str userId), ("name", .str (body.name.getD "")),
                 ("type", .str (body.type.getD "")), ("isPublic", .bool body.isPublic),
                 ("parentId", body.parentId.json)]⟩,
               ⟨db.files ++ [⟨.oid (idHex db.nextId), uoid, body.name.getD "",
                  body.type.getD "", body.isPublic, _parentId, none⟩], db.nextId + 1⟩,
               fs, []⟩
      else
        let localPath := filesDir ++ "/" ++ uuid
        let fs1 := fsWrite fs localPath (decode (body.data.getD ""))
        match (if body.parentId == Value.num 0 then Except.ok body.parentId
               else newObjectId body.parentId) with
        | .error e => .error e
        | .ok parentIdObject =>
          match newObjectId (.str userId) with
          | .error e => .error e
          | .ok uoid =>
            .ok ⟨⟨201, .obj [("id", Value.json (.oid (idHex db.nextId))),
                   ("userId", .str userId), ("name", .str (body.name.getD "")),
                   ("type", .str (body.type.getD "")), ("isPublic", .bool body.isPublic),
                   ("parentId", body.parentId.json)]⟩,
                 ⟨db.files ++ [⟨.oid (idHex db.nextId), uoid, body.name.getD "",
                    body.type.getD "", body.isPublic, parentIdObject, some localPath⟩],
                  db.nextId + 1⟩,
                 fs1,
                 if body.type.getD "" == "image" then [(Value.oid (idHex db.nextId), userId)]
                 else []⟩

/-- BSON cross-type sort order used by $sort: null before numbers before
strings before ObjectIds before booleans. -/
def mongoRank : Value → Nat
  | .null => 0
  | .num _ => 1
  | .str _ => 2
  | .oid _ => 3
  | .bool _ => 4

/-- Lexicographic order on character lists. -/
def charListLe : List Char → List Char → Bool
  | [], _ => true
  | _ :: _, [] => false
  | a :: as, b :: bs => if a == b then charListLe as bs else decide (a < b)

/-- The sort key order of $sort on _id values: cross-type rank first, then the
in-type order. -/
def mongoLe (a b : Value) : Bool :=
  if mongoRank a != mongoRank b then decide (mongoRank a < mongoRank b)
  else match a, b with
    | .num x, .num y => decide (x ≤ y)
    | .str x, .str y => charListLe x.toList y.toList
    | .oid x, .oid y => charListLe x.toList y.toList
    | .bool x, .bool y => !x || y
    | _, _ => true

/-- Insert a document into a list sorted by ascending _id. -/
def insertById (d : FileDoc) : List FileDoc → List FileDoc
  | [] => [d]
  | x :: xs => if mongoLe d._id x._id then d :: x :: xs else x :: insertById d xs

/-- The $sort {_id: 1} stage (stable insertion sort; _ids are unique in
practice). -/
def sortById : List FileDoc → List FileDoc
  | [] => []
  | d :: rest => insertById d (sortById rest)

/-- FilesController.getIndex: GET /files. Query parameters arrive as strings;
an absent parentId defaults to the string '0', an absent page to the number 0
(which passes the digit regex after coercion to "0" and parses to 0). The
aggregation pipeline matches parentId and userId, sorts by _id ascending,
skips page * 20 documents and returns at most 20. -/
def getIndex (rs : Redis) (db : DB) (token : String)
    (parentIdQ pageQ : Option String) : Response :=
  match resolveToken rs token with
  | none => unauthorized
  | some userId =>
    let _parentId := convertParentId (.str (parentIdQ.getD "0"))
    let _userId := strToId userId
    let docs := ((sortById (db.files.filter
        (fun d => d.parentId == _parentId && d.userId == _userId))).drop (pageOf pageQ * 20)).take 20
    ⟨200, .arr (docs.map formatFileDocument)⟩

/-- updateOne with filter {_id, userId} and update {$set: {isPublic: b}}:
updates the first matching document and reports matchedCount. -/
def updateOneIsPublic (b : Bool) (fid uidv : Value) : List FileDoc → List FileDoc × Nat
  | [] => ([], 0)
  | d :: rest =>
    if d._id == fid && d.userId == uidv then ({ d with isPublic := b } :: rest, 1)
    else
      let r := updateOneIsPublic b fid uidv rest
      (d :: r.1, r.2)

/-- Common body of FilesController.putPublish and putUnpublish (the two
controllers are identical except for the stored boolean). On a match the
controller re-fetches by _id alone and formats the document; formatting a
null fetch would throw (unreachable, since a match leaves a document with
that _id in place). -/
def putVisibility (b : Bool) (rs : Redis) (db : DB) (token : String) (id : String) :
    Except String (Response × DB) :=
  match resolveToken rs token with
  | none => .ok (unauthorized, db)
  | some userId =>
    let _id := strToId id
    let _userId := strToId userId
    let r := updateOneIsPublic b _id _userId db.files
    if r.2 != 0 then
      match r.1.find? (fun d => d._id == _id) with
      | some d => .ok (⟨200, .obj (formatFileDocument d)⟩, ⟨r.1, db.nextId⟩)
      | none => .error "TypeError"
    else .ok (notFound, ⟨r.1, db.nextId⟩)

/-- FilesController.putPublish: PUT /files/:id/publish. -/
def putPublish (rs : Redis) (db : DB) (token : String) (id : String) :
    Except String (Response × DB) :=
  putVisibility true rs db token id

/-- FilesController.putUnpublish: PUT /files/:id/unpublish. -/
def putUnpublish (rs : Redis) (db : DB) (token : String) (id : String) :
    Except String (Response × DB) :=
  putVisibility false rs db token id

/-- FilesController.getFile: GET /files/:id/data. mimeCT stands for
mime.contentType applied to the document name. An absent X-Token header
interpolates into the redis key as the literal text "undefined"; an absent
localPath interpolates into the path the same way. The none branch of the
owner comparison is unreachable (guarded by the previous check); true there
reflects that a string never strictly equals null. -/
def getFile (mimeCT : String → String) (rs : Redis) (db : DB) (fs : FS)
    (token : Option String) (id : String) (size : Option String) : Response :=
  let userId := redisGet rs ("auth_" ++ token.getD "undefined")
  let _id := strToId id
  match db.files.find? (fun d => d._id == _id) with
  | none => notFound
  | some fileDocument =>
    if !fileDocument.isPublic && userId.isNone then notFound
    else if !fileDocument.isPublic && (match userId with
        | some u => fileDocument.userId.jsToString != u
        | none => true) then notFound
    else if fileDocument.type == "folder" then ⟨400, errBody "A folder doesn't have content"⟩
    else
      let base := fileDocument.localPath.getD "undefined"
      let filePath := if fileDocument.type == "image" && (match size with
          | some s => ["500", "250", "100"].contains s
          | none => false) then base ++ "_" ++ size.getD "" else base
      if !fsExists fs filePath then notFound
      else ⟨200, .file (mimeCT fileDocument.name) (fsRead fs filePath)⟩

/-- A thumbnail job payload as enqueued by postUpload and consumed by
worker.js. -/
structure ThumbJob where
  fileId : Option String
  userId : Option String
deriving DecidableEq

/-- The fileQueue.process handler of worker.js: validates the job fields,
looks up the file by {_id, userId}, requires its local content to exist, then
generates and writes the 100/250/500 renditions beside the original. thumb
stands for the image-thumbnail library applied to the source bytes at
localPath. A document without localPath reaches the existence check with an
undefined path, which existsSync reports as absent. -/
def fileQueueProcess (thumb : Nat → String → String) (db : DB) (fs : FS)
    (job : ThumbJob) : Except String (FS × String) :=
  if !optTruthy job.fileId then .error "Missing fileId"
  else if !optTruthy job.userId then .error "Missing userId"
  else
    let _id := strToId (job.fileId.getD "")
    let _userId := strToId (job.userId.getD "")
    match db.files.find? (fun d => d._id == _id && d.userId == _userId) with
    | none => .error "File not found"
    | some file =>
      match file.localPath with
      | none => .error "File not found"
      | some p =>
        if !fsExists fs p then .error "File not found"
        else
          let src := fsRead fs p
          .ok (fsWrite (fsWrite (fsWrite fs (p ++ "_100") (thumb 100 src))
                 (p ++ "_250") (thumb 250 src)) (p ++ "_500") (thumb 500 src),
               "Thumbnails for " ++ file.name ++ " created successfully.")

/-- C10: the status endpoint responds 200 with redis and db true exactly when
both clients report connected, and sends no response at all otherwise. -/
theorem claim_C10_status :
    (∀ dbAlive redisAlive : Bool,
       getStatus dbAlive redisAlive =
         some ⟨200, .obj [("redis", .bool true), ("db", .bool true)]⟩
         ↔ (dbAlive = true ∧ redisAlive = true))
  ∧ (∀ dbAlive redisAlive : Bool, ¬(dbAlive = true ∧ redisAlive = true) →
       getStatus dbAlive redisAlive = none) := by
  constructor
  · intro a b
    cases a <;> cases b <;> simp [getStatus]
  · intro a b h
    cases a <;> cases b <;> simp_all [getStatus]

/-- C10 witness: concrete evaluations through the theorem. -/
theorem claim_C10_status_witness :
    getStatus false true = none
  ∧ getStatus true true = some ⟨200, .obj [("redis", .bool true), ("db", .bool true)]⟩ :=
  ⟨claim_C10_status.2 false true (by simp),
   (claim_C10_status.1 true true).2 ⟨rfl, rfl⟩⟩

/-- C1: failing input for the root-listing claim. A folder created at the root
is stored with parentId the number 0, yet getIndex matches the query string
'0' against it; MongoDB equality is type-sensitive, so the listing is empty
instead of containing the folder. -/
theorem claim_C1_root_list_bug :
    postUpload (fun s => s) "/tmp/file_manager" "u1"
        [("auth_tok", "aabbccddeeff001122334455")] ⟨[], 0⟩ [] "tok"
        ⟨some "docs", some "folder", .num 0, false, none⟩ =
      .ok ⟨⟨201, .obj [("id", .str (idHex 0)), ("userId", .str "aabbccddeeff001122334455"),
             ("name", .str "docs"), ("type", .str "folder"), ("isPublic", .bool false),
             ("parentId", .num 0)]⟩,
           ⟨[⟨.oid (idHex 0), .oid "aabbccddeeff001122334455", "docs", "folder", false,
              .num 0, none⟩], 1⟩, [], []⟩
  ∧ getIndex [("auth_tok", "aabbccddeeff001122334455")]
      ⟨[⟨.oid (idHex 0), .oid "aabbccddeeff001122334455", "docs", "folder", false,
         .num 0, none⟩], 1⟩ "tok" (some "0") (some "0") = ⟨200, .arr []⟩
  ∧ getIndex [("auth_tok", "aabbccddeeff001122334455")]
      ⟨[⟨.oid (idHex 0), .oid "aabbccddeeff001122334455", "docs", "folder", false,
         .num 0, none⟩], 1⟩ "tok" none none = ⟨200, .arr []⟩ := by
  refine ⟨by decide, by decide, by decide⟩

/-- C3 counterexample: with a valid token, a present name, type folder and
parentId the empty string — which is not 0 and names no existing node —
postUpload succeeds with 201 instead of failing ParentNotFound. -/
theorem claim_C3_counterexample :
    postUpload (fun s => s) "/tmp/file_manager" "u1"
        [("auth_tok", "aabbccddeeff001122334455")] ⟨[], 0⟩ [] "tok"
        ⟨some "x", some "folder", .str "", false, none⟩ =
      .ok ⟨⟨201, .obj [("id", .str (idHex 0)), ("userId", .str "aabbccddeeff001122334455"),
             ("name", .str "x"), ("type", .str "folder"), ("isPublic", .bool false),
             ("parentId", .str "")]⟩,
           ⟨[⟨.oid (idHex 0), .oid "aabbccddeeff001122334455", "x", "folder", false,
              .str "", none⟩], 1⟩, [], []⟩
  ∧ Value.str "" ≠ Value.num 0
  ∧ (⟨[], 0⟩ : DB).files.find? (fun d => d._id == convertParentId (.str "")) = none := by
  refine ⟨by decide, by decide, by decide⟩

/-- C5: a login attempt with an unregistered email and one with a registered
email but a wrong-digest password yield identical results — the same 401
Unauthorized response with the same body, and an unchanged token store. -/
theorem claim_C5_login_no_oracle (sha1 : String → String) (uuid : String)
    (users : List UserDoc) (rs : Redis) (email1 pw1 email2 pw2 : String) (u : UserDoc)
    (h1 : users.find? (fun x => x.email == email1) = none)
    (h2 : users.find? (fun x => x.email == email2) = some u)
    (h3 : u.password ≠ sha1 pw2) :
    getConnect sha1 uuid users rs email1 pw1 = getConnect sha1 uuid users rs email2 pw2
  ∧ getConnect sha1 uuid users rs email1 pw1 = (unauthorized, rs) := by
  unfold getConnect
  rw [h1, h2]
  simp [h3]

/-- C5 witness: the two indistinguishable failures on a concrete store. -/
theorem claim_C5_login_no_oracle_witness :
    getConnect (fun s => s) "t0" [⟨.oid "00", "b@x.com", "hash"⟩] [] "a@x.com" "p" =
      getConnect (fun s => s) "t0" [⟨.oid "00", "b@x.com", "hash"⟩] [] "b@x.com" "wrong"
  ∧ getConnect (fun s => s) "t0" [⟨.oid "00", "b@x.com", "hash"⟩] [] "a@x.com" "p" =
      (unauthorized, []) :=
  claim_C5_login_no_oracle (fun s => s) "t0" [⟨.oid "00", "b@x.com", "hash"⟩] []
    "a@x.com" "p" "b@x.com" "wrong" ⟨.oid "00", "b@x.com", "hash"⟩
    (by decide) (by decide) (by decide)

/-- Helper: a filtered-out key is never found. -/
theorem find_filter_ne (l : List (String × String)) (k : String) :
    (l.filter (fun e => e.1 != k)).find? (fun e => e.1 == k) = none := by
  induction l with
  | nil => rfl
  | cons e tl ih =>
    by_cases h : e.1 = k
    · simp [List.filter_cons, h, ih]
    · simp [List.filter_cons, List.find?_cons, h, ih]

/-- Helper: after deleting a key, a lookup of that key misses. -/
theorem redisGet_del_self (rs : Redis) (k : String) : redisGet (redisDel rs k) k = none := by
  simp [redisGet, redisDel, find_filter_ne]

/-- C6: a successful logout (204, empty body) deletes the token from the
store immediately, so resolving the token afterwards misses, and any
protected operation (here getIndex) answers 401 Unauthorized. -/
theorem claim_C6_logout_then_resolve (rs : Redis) (t : String) (resp : Response) (rs2 : Redis)
    (h : getDisconnect rs (some t) = (resp, rs2)) (hok : resp.status = 204) :
    resp = ⟨204, .empty⟩ ∧ rs2 = redisDel rs ("auth_" ++ t) ∧ resolveToken rs2 t = none
  ∧ (∀ db parentIdQ pageQ, getIndex rs2 db t parentIdQ pageQ = unauthorized) := by
  unfold getDisconnect at h
  simp only [Option.getD_some] at h
  by_cases ht : optTruthy (some t)
  · rw [if_neg (by simp [ht])] at h
    cases hg : redisGet rs ("auth_" ++ t) with
    | none =>
      rw [hg] at h
      cases h
      simp [unauthorized] at hok
    | some v =>
      rw [hg] at h
      cases h
      refine ⟨rfl, rfl, ?_, ?_⟩
      · exact redisGet_del_self rs ("auth_" ++ t)
      · intro db parentIdQ pageQ
        unfold getIndex resolveToken
        rw [redisGet_del_self rs ("auth_" ++ t)]
  · rw [if_pos (by simp [ht])] at h
    cases h
    simp [unauthorized] at hok

/-- C6 witness: a concrete logout then resolve. -/
theorem claim_C6_logout_then_resolve_witness :
    resolveToken (getDisconnect [("auth_t1", "u1")] (some "t1")).2 "t1" = none :=
  (claim_C6_logout_then_resolve [("auth_t1", "u1")] "t1"
    (getDisconnect [("auth_t1", "u1")] (some "t1")).1
    (getDisconnect [("auth_t1", "u1")] (some "t1")).2
    rfl (by decide)).2.2.1

/-- C9: a page query parameter that is not a string of decimal digits does
not fail for an authenticated caller: the request behaves exactly as page 0
and answers 200. -/
theorem claim_C9_invalid_page (rs : Redis) (db : DB) (token uid : String)
    (parentIdQ : Option String) (s : String)
    (hres : resolveToken rs token = some uid)
    (hbad : isDigitString s = false) :
    getIndex rs db token parentIdQ (some s) = getIndex rs db token parentIdQ (some "0")
  ∧ (getIndex rs db token parentIdQ (some s)).status = 200 := by
  have hs : pageOf (some s) = pageOf (some "0") := by
    simp only [pageOf, hbad, Bool.false_eq_true, if_false]
    decide
  constructor
  · unfold getIndex
    rw [hres, hs]
  · unfold getIndex
    rw [hres, hs]

/-- C9 witness: a concrete negative page. -/
theorem claim_C9_invalid_page_witness :
    getIndex [("auth_tok", "aabbccddeeff001122334455")] ⟨[], 0⟩ "tok" none (some "-1") =
      getIndex [("auth_tok", "aabbccddeeff001122334455")] ⟨[], 0⟩ "tok" none (some "0") :=
  (claim_C9_invalid_page [("auth_tok", "aabbccddeeff001122334455")] ⟨[], 0⟩ "tok"
    "aabbccddeeff001122334455" none "-1" (by decide) (by decide)).1

/-- C2: reading the content of an existing private node with no resolved
caller, or with a caller other than the owner, answers the same 404 Not
found response that a nonexistent node id produces — the two cases are
indistinguishable. -/
theorem claim_C2_private_read_404 (mimeCT : String → String) (rs : Redis) (db : DB)
    (fs : FS) (token : Option String) (id : String) (size : Option String) (d : FileDoc)
    (hfind : db.files.find? (fun x => x._id == strToId id) = some d)
    (hpriv : d.isPublic = false)
    (hdeny : redisGet rs ("auth_" ++ token.getD "undefined") = none
           ∨ ∃ u, redisGet rs ("auth_" ++ token.getD "undefined") = some u
                ∧ d.userId.jsToString ≠ u) :
    getFile mimeCT rs db fs token id size = notFound
  ∧ (∀ id2 token2 size2, db.files.find? (fun x => x._id == strToId id2) = none →
       getFile mimeCT rs db fs token2 id2 size2 = notFound) := by
  constructor
  · simp only [getFile]
    rw [hfind]
    rcases hdeny with hnone | ⟨u, hu, hne⟩
    · rw [hnone]
      simp [hpriv]
    · rw [hu]
      simp [hpriv, hne]
  · intro id2 token2 size2 hnone
    simp only [getFile]
    rw [hnone]

/-- C2 witness: a concrete private file, no token in the store. -/
theorem claim_C2_private_read_404_witness :
    getFile (fun _ => "text/plain") [] ⟨[⟨.oid (idHex 0), .oid "aabbccddeeff001122334455",
        "a.txt", "file", false, .num 0, some "/tmp/file_manager/u1"⟩], 1⟩
      [("/tmp/file_manager/u1", "DATA")] none (idHex 0) none = notFound :=
  (claim_C2_private_read_404 (fun _ => "text/plain") [] ⟨[⟨.oid (idHex 0),
      .oid "aabbccddeeff001122334455", "a.txt", "file", false, .num 0,
      some "/tmp/file_manager/u1"⟩], 1⟩ [("/tmp/file_manager/u1", "DATA")] none (idHex 0) none
    ⟨.oid (idHex 0), .oid "aabbccddeeff001122334455", "a.txt", "file", false, .num 0,
      some "/tmp/file_manager/u1"⟩ (by decide) rfl (Or.inl (by decide))).1

/-- C7: the thumbnail worker on a job with both fields present fails with
File not found when no document matches {_id, userId} or when the matched
document's local content is absent, and otherwise extends the byte storage
with exactly the three renditions localPath_100, localPath_250 and
localPath_500. -/
theorem claim_C7_worker (thumb : Nat → String → String) (db : DB) (fs : FS)
    (f u : String) (hf : f ≠ "") (hu : u ≠ "") :
    (db.files.find? (fun d => d._id == strToId f && d.userId == strToId u) = none →
       fileQueueProcess thumb db fs ⟨some f, some u⟩ = .error "File not found")
  ∧ (∀ d, db.files.find? (fun x => x._id == strToId f && x.userId == strToId u) = some d →
       d.localPath = none →
       fileQueueProcess thumb db fs ⟨some f, some u⟩ = .error "File not found")
  ∧ (∀ d p, db.files.find? (fun x => x._id == strToId f && x.userId == strToId u) = some d →
       d.localPath = some p → fsExists fs p = false →
       fileQueueProcess thumb db fs ⟨some f, some u⟩ = .error "File not found")
  ∧ (∀ d p, db.files.find? (fun x => x._id == strToId f && x.userId == strToId u) = some d →
       d.localPath = some p → fsExists fs p = true →
       fileQueueProcess thumb db fs ⟨some f, some u⟩ =
         .ok (fsWrite (fsWrite (fsWrite fs (p ++ "_100") (thumb 100 (fsRead fs p)))
                (p ++ "_250") (thumb 250 (fsRead fs p))) (p ++ "_500") (thumb 500 (fsRead fs p)),
              "Thumbnails for " ++ d.name ++ " created successfully.")) := by
  have hft : optTruthy (some f) = true := by simp [optTruthy, hf]
  have hut : optTruthy (some u) = true := by simp [optTruthy, hu]
  refine ⟨?_, ?_, ?_, ?_⟩
  · intro hnone
    simp only [fileQueueProcess, hft, hut, Option.getD_some, Bool.not_true, if_false]
    rw [hnone]
    simp
  · intro d hd hlp
    simp only [fileQueueProcess, hft, hut, Option.getD_some, Bool.not_true, if_false]
    rw [hd]
    simp [hlp]
  · intro d p hd hlp hex
    simp only [fileQueueProcess, hft, hut, Option.getD_some, Bool.not_true, if_false]
    rw [hd]
    simp [hlp, hex]
  · intro d p hd hlp hex
    simp only [fileQueueProcess, hft, hut, Option.getD_some, Bool.not_true, if_false]
    rw [hd]
    simp [hlp, hex]

/-- C7 witness: a concrete image file with content present. -/
theorem claim_C7_worker_witness :
    fileQueueProcess (fun w s => toString w ++ s)
      ⟨[⟨.oid (idHex 0), .oid "aabbccddeeff001122334455", "pic.png", "image", false, .num 0,
         some "/tmp/file_manager/u1"⟩], 1⟩
      [("/tmp/file_manager/u1", "IMG")]
      ⟨some (idHex 0), some "aabbccddeeff001122334455"⟩ =
      .ok (fsWrite (fsWrite (fsWrite [("/tmp/file_manager/u1", "IMG")]
             ("/tmp/file_manager/u1" ++ "_100") ("100IMG"))
             ("/tmp/file_manager/u1" ++ "_250") ("250IMG"))
             ("/tmp/file_manager/u1" ++ "_500") ("500IMG"),
           "Thumbnails for " ++ "pic.png" ++ " created successfully.") :=
  (claim_C7_worker (fun w s => toString w ++ s)
    ⟨[⟨.oid (idHex 0), .oid "aabbccddeeff001122334455", "pic.png", "image", false, .num 0,
       some "/tmp/file_manager/u1"⟩], 1⟩
    [("/tmp/file_manager/u1", "IMG")] (idHex 0) "aabbccddeeff001122334455"
    (by decide) (by decide)).2.2.2
    ⟨.oid (idHex 0), .oid "aabbccddeeff001122334455", "pic.png", "image", false, .num 0,
      some "/tmp/file_manager/u1"⟩ "/tmp/file_manager/u1" (by decide) rfl (by decide)

/-- C3 (amended): with a valid token, postUpload validates in order — Missing
name when name is falsy, Missing type when type is outside {folder, file,
image}, Missing data when type is not folder and data is falsy, and then,
when the converted parentId is truthy (so not the number 0 and not a falsy
value such as the empty string), Parent not found when no document has that
id and Parent is not a folder when the referenced document's type is not
folder. -/
theorem claim_C3_validation_order (decode : String → String) (filesDir uuid : String)
    (rs : Redis) (db : DB) (fs : FS) (token uid : String) (body : UploadBody)
    (hres : resolveToken rs token = some uid) :
    (optTruthy body.name = false →
       postUpload decode filesDir uuid rs db fs token body =
         .ok ⟨⟨400, errBody "Missing name"⟩, db, fs, []⟩)
  ∧ (optTruthy body.name = true →
     ["folder", "file", "image"].contains (body.type.getD "") = false →
       postUpload decode filesDir uuid rs db fs token body =
         .ok ⟨⟨400, errBody "Missing type"⟩, db, fs, []⟩)
  ∧ (optTruthy body.name = true →
     ["folder", "file", "image"].contains (body.type.getD "") = true →
     body.type.getD "" ≠ "folder" → optTruthy body.data = false →
       postUpload decode filesDir uuid rs db fs token body =
         .ok ⟨⟨400, errBody "Missing data"⟩, db, fs, []⟩)
  ∧ (optTruthy body.name = true →
     ["folder", "file", "image"].contains (body.type.getD "") = true →
     (body.type.getD "" = "folder" ∨ optTruthy body.data = true) →
     (convertParentId body.parentId).truthy = true →
     db.files.find? (fun d => d._id == convertParentId body.parentId) = none →
       postUpload decode filesDir uuid rs db fs token body =
         .ok ⟨⟨400, errBody "Parent not found"⟩, db, fs, []⟩)
  ∧ (∀ p, optTruthy body.name = true →
     ["folder", "file", "image"].contains (body.type.getD "") = true →
     (body.type.getD "" = "folder" ∨ optTruthy body.data = true) →
     (convertParentId body.parentId).truthy = true →
     db.files.find? (fun d => d._id == convertParentId body.parentId) = some p →
     p.type ≠ "folder" →
       postUpload decode filesDir uuid rs db fs token body =
         .ok ⟨⟨400, errBody "Parent is not a folder"⟩, db, fs, []⟩) := by
  refine ⟨?_, ?_, ?_, ?_, ?_⟩
  · intro h1
    have b1 : (!optTruthy body.name) = true := by rw [h1]; rfl
    simp only [postUpload]
    rw [hres, b1]
    simp
  · intro h1 h2
    have b1 : (!optTruthy body.name) = false := by rw [h1]; rfl
    have b2 : (!(["folder", "file", "image"].contains (body.type.getD ""))) = true := by
      rw [h2]; rfl
    simp only [postUpload]
    rw [hres, b1, b2]
    simp
  · intro h1 h2 h3 h4
    have b1 : (!optTruthy body.name) = false := by rw [h1]; rfl
    have b2 : (!(["folder", "file", "image"].contains (body.type.getD ""))) = false := by
      rw [h2]; rfl
    have b3 : (body.type.getD "" != "folder" && !optTruthy body.data) = true := by
      simp [h3, h4]
    simp only [postUpload]
    rw [hres, b1, b2, b3]
    simp
  · intro h1 h2 h3 hpt hfind
    have b1 : (!optTruthy body.name) = false := by rw [h1]; rfl
    have b2 : (!(["folder", "file", "image"].contains (body.type.getD ""))) = false := by
      rw [h2]; rfl
    have b3 : (body.type.getD "" != "folder" && !optTruthy body.data) = false := by
      rcases h3 with h3 | h3 <;> simp [h3]
    have b4 : ((convertParentId body.parentId).truthy &&
        (db.files.find? (fun d => d._id == convertParentId body.parentId)).isNone) = true := by
      rw [hpt, hfind]; rfl
    simp only [postUpload]
    rw [hres, b1, b2, b3, b4]
    simp
  · intro p h1 h2 h3 hpt hfind hptype
    have b1 : (!optTruthy body.name) = false := by rw [h1]; rfl
    have b2 : (!(["folder", "file", "image"].contains (body.type.getD ""))) = false := by
      rw [h2]; rfl
    have b3 : (body.type.getD "" != "folder" && !optTruthy body.data) = false := by
      rcases h3 with h3 | h3 <;> simp [h3]
    have b4 : ((convertParentId body.parentId).truthy &&
        (db.files.find? (fun d => d._id == convertParentId body.parentId)).isNone) = false := by
      rw [hpt, hfind]; rfl
    have b5 : ((convertParentId body.parentId).truthy &&
        ((db.files.find? (fun d => d._id == convertParentId body.parentId)).map
          (fun q => q.type != "folder")).getD false) = true := by
      rw [hpt, hfind]; simp [hptype]
    simp only [postUpload]
    rw [hres, b1, b2, b3, b4, b5]
    simp

/-- C3 (amended) witness: a truthy, valid but unknown parentId fails Parent
not found. -/
theorem claim_C3_validation_order_witness :
    postUpload (fun s => s) "/tmp/file_manager" "u1"
        [("auth_tok", "aabbccddeeff001122334455")] ⟨[], 0⟩ [] "tok"
        ⟨some "x", some "file", .str "deadbeefdeadbeefdeadbeef", false, some "QQ=="⟩ =
      .ok ⟨⟨400, errBody "Parent not found"⟩, ⟨[], 0⟩, [], []⟩ :=
  (claim_C3_validation_order (fun s => s) "/tmp/file_manager" "u1"
    [("auth_tok", "aabbccddeeff001122334455")] ⟨[], 0⟩ [] "tok" "aabbccddeeff001122334455"
    ⟨some "x", some "file", .str "deadbeefdeadbeefdeadbeef", false, some "QQ=="⟩
    (by decide)).2.2.2.1 (by decide) (by decide) (Or.inr (by decide)) (by decide) (by decide)

/-- Helper: updateOne without a match changes nothing and matches nothing. -/
theorem updateOneIsPublic_nomatch (b : Bool) (fid uidv : Value) (l : List FileDoc)
    (h : ∀ d ∈ l, (d._id == fid && d.userId == uidv) = false) :
    updateOneIsPublic b fid uidv l = (l, 0) := by
  induction l with
  | nil => rfl
  | cons d tl ih =>
    have hd := h d (by simp)
    simp only [updateOneIsPublic, hd]
    simp [ih (fun e he => h e (by simp [he]))]

/-- Helper: updateOne flips exactly the first matching document. -/
theorem updateOneIsPublic_first (b : Bool) (fid uidv : Value) (pre post : List FileDoc)
    (d : FileDoc)
    (hpre : ∀ e ∈ pre, (e._id == fid && e.userId == uidv) = false)
    (hd : (d._id == fid && d.userId == uidv) = true) :
    updateOneIsPublic b fid uidv (pre ++ d :: post) =
      (pre ++ { d with isPublic := b } :: post, 1) := by
  induction pre with
  | nil =>
    simp only [List.nil_append, updateOneIsPublic, hd]
    simp
  | cons e tl ih =>
    have he := hpre e (by simp)
    simp only [List.cons_append, updateOneIsPublic, he]
    simp [ih (fun x hx => hpre x (by simp [hx]))]

/-- Helper: the first _id match in the updated list is the updated document. -/
theorem find_first_id (fid : Value) (pre post : List FileDoc) (d : FileDoc)
    (hpre : ∀ e ∈ pre, (e._id == fid) = false)
    (hd : (d._id == fid) = true) :
    (pre ++ d :: post).find? (fun x => x._id == fid) = some d := by
  induction pre with
  | nil => simp [List.find?_cons, hd]
  | cons e tl ih =>
    have he := hpre e (by simp)
    simp [List.find?_cons, he, ih (fun x hx => hpre x (by simp [hx]))]

/-- C4: with a valid token, publish and unpublish answer 404 and modify no
document when no document matches {_id, userId caller}; when one matches,
exactly its isPublic field is set (true for publish, false for unpublish),
every other field and every other document is unchanged, and the updated
document is returned formatted. -/
theorem claim_C4_set_visibility (rs : Redis) (db : DB) (token id uid : String)
    (hres : resolveToken rs token = some uid)
    (hnodup : (db.files.map FileDoc._id).Nodup) :
    ((∀ d ∈ db.files, ¬(d._id = strToId id ∧ d.userId = strToId uid)) →
        putPublish rs db token id = .ok (notFound, db)
      ∧ putUnpublish rs db token id = .ok (notFound, db))
  ∧ (∀ pre d post, db.files = pre ++ d :: post →
       d._id = strToId id → d.userId = strToId uid →
         putPublish rs db token id =
           .ok (⟨200, .obj (formatFileDocument { d with isPublic := true })⟩,
                ⟨pre ++ { d with isPublic := true } :: post, db.nextId⟩)
       ∧ putUnpublish rs db token id =
           .ok (⟨200, .obj (formatFileDocument { d with isPublic := false })⟩,
                ⟨pre ++ { d with isPublic := false } :: post, db.nextId⟩)) := by
  have main : ∀ b : Bool,
      ((∀ d ∈ db.files, ¬(d._id = strToId id ∧ d.userId = strToId uid)) →
         putVisibility b rs db token id = .ok (notFound, db))
    ∧ (∀ pre d post, db.files = pre ++ d :: post →
         d._id = strToId id → d.userId = strToId uid →
         putVisibility b rs db token id =
           .ok (⟨200, .obj (formatFileDocument { d with isPublic := b })⟩,
                ⟨pre ++ { d with isPublic := b } :: post, db.nextId⟩)) := by
    intro b
    constructor
    · intro hno
      have hb : ∀ d ∈ db.files, (d._id == strToId id && d.userId == strToId uid) = false := by
        intro d hdm
        have hneg := hno d hdm
        apply Bool.eq_false_iff.mpr
        intro hcontra
        exact hneg (by simpa [Bool.and_eq_true, beq_iff_eq] using hcontra)
      simp only [putVisibility, hres]
      rw [updateOneIsPublic_nomatch b _ _ _ hb]
      simp
    · intro pre d post hsplit hid huid
      have hdisj : ∀ e ∈ pre, e._id ≠ d._id := by
        intro e he
        rw [hsplit] at hnodup
        simp only [List.map_append, List.map_cons] at hnodup
        have hd2 := (List.nodup_append.mp hnodup).2.2
        intro hcontra
        exact hd2 (a := e._id) (List.mem_map_of_mem FileDoc._id he)
          (by rw [hcontra]; exact List.mem_cons_self _ _)
      have hpre : ∀ e ∈ pre, (e._id == strToId id && e.userId == strToId uid) = false := by
        intro e he
        have : (e._id == strToId id) = false := by
          apply Bool.eq_false_iff.mpr
          intro hcontra
          exact hdisj e he (by rw [beq_iff_eq] at hcontra; rw [hcontra, hid])
        simp [this]
      have hd : (d._id == strToId id && d.userId == strToId uid) = true := by
        simp [beq_iff_eq, hid, huid]
      have hpre2 : ∀ e ∈ pre, (e._id == strToId id) = false := by
        intro e he
        apply Bool.eq_false_iff.mpr
        intro hcontra
        exact hdisj e he (by rw [beq_iff_eq] at hcontra; rw [hcontra, hid])
      simp only [putVisibility, hres]
      rw [hsplit, updateOneIsPublic_first b _ _ _ _ _ hpre hd]
      have hfind := find_first_id (strToId id) pre post { d with isPublic := b } hpre2
        (by simp [beq_iff_eq, hid])
      simp only [hfind]
      rfl
  refine ⟨fun hno => ⟨((main true).1 hno : _), ((main false).1 hno : _)⟩,
          fun pre d post h1 h2 h3 => ⟨(main true).2 pre d post h1 h2 h3,
            (main false).2 pre d post h1 h2 h3⟩⟩

/-- C4 witness: publishing a concrete private file flips only isPublic. -/
theorem claim_C4_set_visibility_witness :
    putPublish [("auth_tok", "aabbccddeeff001122334455")]
      ⟨[⟨.oid (idHex 0), .oid "aabbccddeeff001122334455", "a.txt", "file", false, .num 0,
         some "/tmp/file_manager/u1"⟩], 1⟩ "tok" (idHex 0) =
      .ok (⟨200, .obj (formatFileDocument ⟨.oid (idHex 0), .oid "aabbccddeeff001122334455",
             "a.txt", "file", true, .num 0, some "/tmp/file_manager/u1"⟩)⟩,
           ⟨[⟨.oid (idHex 0), .oid "aabbccddeeff001122334455", "a.txt", "file", true, .num 0,
              some "/tmp/file_manager/u1"⟩], 1⟩) :=
  ((claim_C4_set_visibility [("auth_tok", "aabbccddeeff001122334455")]
    ⟨[⟨.oid (idHex 0), .oid "aabbccddeeff001122334455", "a.txt", "file", false, .num 0,
       some "/tmp/file_manager/u1"⟩], 1⟩ "tok" (idHex 0) "aabbccddeeff001122334455"
    (by decide) (by decide)).2 []
    ⟨.oid (idHex 0), .oid "aabbccddeeff001122334455", "a.txt", "file", false, .num 0,
      some "/tmp/file_manager/u1"⟩ [] rfl (by decide) (by decide)).1

/-- Helper: for a request parentId that is the number 0 or a string, the
stored (converted) parentId serializes exactly as the request value does. -/
theorem convertParentId_json (v : Value)
    (hv : v = Value.num 0 ∨ ∃ s, v = Value.str s) :
    (convertParentId v).json = v.json := by
  rcases hv with h | ⟨s, h⟩ <;> subst h
  · rfl
  · unfold convertParentId
    by_cases ht : (Value.str s).truthy && isValidObjectId (Value.str s)
    · simp only [ht, if_true]
      rfl
    · simp only [Bool.not_eq_true] at ht
      simp only [ht]
      rfl

/-- Helper: the file-branch parentId construction also serializes as the
request value for a number-0 or string parentId. -/
theorem parentIdObject_json (v pid : Value)
    (hv : v = Value.num 0 ∨ ∃ s, v = Value.str s)
    (h : (if v == Value.num 0 then Except.ok v else newObjectId v) = .ok pid) :
    pid.json = v.json := by
  rcases hv with h0 | ⟨s, h0⟩ <;> subst h0
  · simp at h
    subst h
    rfl
  · have : ((Value.str s) == Value.num 0) = false := by simp
    rw [this] at h
    simp only [Bool.false_eq_true, if_false] at h
    unfold newObjectId at h
    split at h
    · simp only [Except.ok.injEq] at h
      subst h
      rfl
    · cases h

/-- C8: every 201 creation response body carries exactly the six public
fields id, userId, name, type, isPublic and parentId of the created
document, serialized as res.json serializes them, and never localPath — for
folder as well as file/image creations (parentId in the request is the
number 0 or a string, per the API contract). -/
theorem claim_C8_create_response (decode : String → String) (filesDir uuid : String)
    (rs : Redis) (db : DB) (fs : FS) (token : String) (body : UploadBody)
    (b : Body) (db2 : DB) (fs2 : FS) (jobs : List (Value × String))
    (hpid : body.parentId = Value.num 0 ∨ ∃ s, body.parentId = Value.str s)
    (h : postUpload decode filesDir uuid rs db fs token body = .ok ⟨⟨201, b⟩, db2, fs2, jobs⟩) :
    ∃ d, db2.files = db.files ++ [d]
      ∧ b = .obj [("id", d._id.json), ("userId", d.userId.json), ("name", .str d.name),
           ("type", .str d.type), ("isPublic", .bool d.isPublic), ("parentId", d.parentId.json)]
      ∧ bodyKeys b = ["id", "userId", "name", "type", "isPublic", "parentId"]
      ∧ "localPath" ∉ bodyKeys b := by
  simp only [postUpload] at h
  split at h
  · simp [unauthorized, errBody] at h
  · rename_i userId hres
    split at h
    · simp [errBody] at h
    · split at h
      · simp [errBody] at h
      · split at h
        · simp [errBody] at h
        · split at h
          · simp [errBody] at h
          · split at h
            · simp [errBody] at h
            · split at h
              · -- folder branch
                split at h
                · cases h
                · rename_i uoid huoid
                  unfold newObjectId at huoid
                  split at huoid
                  · simp only [Except.ok.injEq] at huoid
                    subst huoid
                    simp only [Except.ok.injEq, UploadResult.mk.injEq, Response.mk.injEq] at h
                    obtain ⟨⟨-, hb⟩, hdb, hfs, hjobs⟩ := h
                    refine ⟨⟨.oid (idHex db.nextId), oidOfValue (.str userId), body.name.getD "",
                      body.type.getD "", body.isPublic, convertParentId body.parentId, none⟩,
                      ?_, ?_, ?_, ?_⟩
                    · rw [← hdb]
                    · rw [← hb]
                      dsimp only
                      rw [convertParentId_json body.parentId hpid]
                      rfl
                    · rw [← hb]
                      rfl
                    · rw [← hb]
                      simp [bodyKeys]
                  · cases huoid
              · -- file branch
                split at h
                · cases h
                · rename_i pidObj hpidObj
                  split at h
                  · cases h
                  · rename_i uoid huoid
                    unfold newObjectId at huoid
                    split at huoid
                    · simp only [Except.ok.injEq] at huoid
                      subst huoid
                      simp only [Except.ok.injEq, UploadResult.mk.injEq, Response.mk.injEq] at h
                      obtain ⟨⟨-, hb⟩, hdb, hfs, hjobs⟩ := h
                      refine ⟨⟨.oid (idHex db.nextId), oidOfValue (.str userId), body.name.getD "",
                        body.type.getD "", body.isPublic, pidObj,
                        some (filesDir ++ "/" ++ uuid)⟩, ?_, ?_, ?_, ?_⟩
                      · rw [← hdb]
                      · rw [← hb]
                        dsimp only
                        rw [parentIdObject_json body.parentId pidObj hpid hpidObj]
                        rfl
                      · rw [← hb]
                        rfl
                      · rw [← hb]
                        simp [bodyKeys]
                    · cases huoid

/-- C8 witness: a concrete folder creation instantiating the theorem. -/
theorem claim_C8_create_response_witness :
    ∃ d, (⟨[⟨Value.oid (idHex 0), Value.oid "aabbccddeeff001122334455", "docs", "folder",
             false, Value.num 0, none⟩], 1⟩ : DB).files = (⟨[], 0⟩ : DB).files ++ [d]
      ∧ Body.obj [("id", Value.str (idHex 0)), ("userId", Value.str "aabbccddeeff001122334455"),
           ("name", Value.str "docs"), ("type", Value.str "folder"),
           ("isPublic", Value.bool false), ("parentId", Value.num 0)] =
          .obj [("id", d._id.json), ("userId", d.userId.json), ("name", .str d.name),
           ("type", .str d.type), ("isPublic", .bool d.isPublic), ("parentId", d.parentId.json)]
      ∧ bodyKeys (Body.obj [("id", Value.str (idHex 0)),
           ("userId", Value.str "aabbccddeeff001122334455"), ("name", Value.str "docs"),
           ("type", Value.str "folder"), ("isPublic", Value.bool false),
           ("parentId", Value.num 0)]) = ["id", "userId", "name", "type", "isPublic", "parentId"]
      ∧ "localPath" ∉ bodyKeys (Body.obj [("id", Value.str (idHex 0)),
           ("userId", Value.str "aabbccddeeff001122334455"), ("name", Value.str "docs"),
           ("type", Value.str "folder"), ("isPublic", Value.bool false),
           ("parentId", Value.num 0)]) :=
  claim_C8_create_response (fun s => s) "/tmp/file_manager" "u1"
    [("auth_tok", "aabbccddeeff001122334455")] ⟨[], 0⟩ [] "tok"
    ⟨some "docs", some "folder", .num 0, false, none⟩
    (Body.obj [("id", Value.str (idHex 0)), ("userId", Value.str "aabbccddeeff001122334455"),
      ("name", Value.str "docs"), ("type", Value.str "folder"), ("isPublic", Value.bool false),
      ("parentId", Value.num 0)])
    ⟨[⟨Value.oid (idHex 0), Value.oid "aabbccddeeff001122334455", "docs", "folder", false,
       Value.num 0, none⟩], 1⟩ [] [] (Or.inl rfl) (by decide)
